import Mathlib

/-!
Shallow embedding of the `template` crate's store layer
(`src/store.rs`, `src/templates.rs`, `src/lib.rs`).

Rust `HashMap` values are modelled as association lists with unique-key
insert semantics (`mapInsert` replaces an existing key, like
`HashMap::insert`; `mapExtend` is `HashMap::extend`, inserting every entry
of the second map into the first).  Stateful trait methods
(`fn parse_map(&mut self)`, `fn changed(&mut self)`) become pure
state-passing functions `σ → result × σ`.  The filesystem that `FileStore`
talks to is modelled as scripts of observation results carried in the
store state: `fsNows` are the successive results of `SystemTime::now()`,
`fsStats` the successive results of `fs::metadata(..).modified()` (with
`none` for any stat failure), and `fsReads` the successive results of
`fs::read_to_string` (errors already wrapped as `Error::Io`, as the `?`
conversion does).  `SystemTime` is modelled as `Nat`.
-/

/-- Rust `Error` from `src/error.rs`; the payloads carry the error message. -/
inductive Error where
  | Io : String → Error
  | Serialize : String → Error
  | Deserialize : String → Error
deriving DecidableEq, Repr

/-- Rust `Mapping<String>` from `src/mapping.rs`: template name → template string. -/
abbrev Mapping := List (String × String)

/-- Rust `TemplateMap<String>` from `src/lib.rs`: namespace → `Mapping`. -/
abbrev TemplateMap := List (String × Mapping)

/-- Rust `LoadFunction` from `src/loader.rs`. -/
abbrev LoadFunction := String → Except Error TemplateMap

/-- Rust `HashMap::get`: look a key up in an association-list map. -/
def mapGet {β : Type} (k : String) : List (String × β) → Option β
  | [] => none
  | (k', v) :: rest => if k' = k then some v else mapGet k rest

/-- Rust `HashMap::insert`: replace the value of an existing key, else append. -/
def mapInsert {β : Type} (k : String) (v : β) : List (String × β) → List (String × β)
  | [] => [(k, v)]
  | (k', v') :: rest => if k' = k then (k, v) :: rest else (k', v') :: mapInsert k v rest

/-- Rust `HashMap::extend`: insert every entry of `other` into `base`. -/
def mapExtend {β : Type} (base other : List (String × β)) : List (String × β) :=
  other.foldl (fun acc kv => mapInsert kv.1 kv.2 acc) base

/-- The `TemplateStore` trait from `src/store.rs`: `&mut self` methods become
state-passing functions. -/
class TemplateStore (σ : Type) where
  parse_map : σ → Except Error TemplateMap × σ
  changed : σ → Bool × σ

/-- Rust `MemoryStore` from `src/store.rs` (the `loader` function field included). -/
structure MemoryStore where
  data : String
  changed : Bool
  loader : LoadFunction

/-- Rust `MemoryStore::new`: dirty flag starts `true`. -/
def MemoryStore.new (data : String) (loader : LoadFunction) : MemoryStore :=
  { data := data, changed := true, loader := loader }

/-- Rust `MemoryStore::update`: set the dirty flag and replace the buffer. -/
def MemoryStore.update (s : MemoryStore) (data : String) : MemoryStore :=
  { s with changed := true, data := data }

/-- Rust `MemoryStore::parse_map`: clear the dirty flag, then run the loader on
the buffer (the flag is cleared even when the loader fails). -/
def MemoryStore.parse_map (s : MemoryStore) : Except Error TemplateMap × MemoryStore :=
  ((s.loader s.data), { s with changed := false })

/-- Rust `impl TemplateStore for MemoryStore`; `changed` reads the dirty flag. -/
instance : TemplateStore MemoryStore where
  parse_map := MemoryStore.parse_map
  changed s := (s.changed, s)

/-- Rust `NullStore` from `src/store.rs`. -/
structure NullStore where
deriving DecidableEq, Repr

/-- Rust `NullStore::new`. -/
def NullStore.new : NullStore := {}

/-- Rust `NullStore::parse_map`: always fails with an `Io` error. -/
def NullStore.parse_map (s : NullStore) : Except Error TemplateMap × NullStore :=
  (.error (.Io "NullStore will always be empty"), s)

/-- Rust `NullStore::changed`: always `false`. -/
def NullStore.changed (s : NullStore) : Bool × NullStore :=
  (false, s)

instance : TemplateStore NullStore where
  parse_map := NullStore.parse_map
  changed := NullStore.changed

/-- Rust `FileStore` from `src/store.rs`, with the filesystem modelled as
observation scripts (see the module comment). -/
structure FileStore where
  file : String
  last : Option Nat
  loader : LoadFunction
  fsNows : List Nat
  fsStats : List (Option Nat)
  fsReads : List (Except Error String)

/-- Rust `FileStore::new`: records no timestamp and does no I/O (the scripts are
passed through untouched); the `Result` return type never carries an error. -/
def FileStore.new (file : String) (loader : LoadFunction) (fsNows : List Nat)
    (fsStats : List (Option Nat)) (fsReads : List (Except Error String)) :
    Except Error FileStore :=
  .ok { file := file, last := none, loader := loader,
        fsNows := fsNows, fsStats := fsStats, fsReads := fsReads }

/-- Rust `FileStore::parse_map`: `(self.loader)(&std::fs::read_to_string(&self.file)?)`;
one read observation is consumed. -/
def FileStore.parse_map (s : FileStore) : Except Error TemplateMap × FileStore :=
  let r := s.fsReads.headD (.error (.Io "read error"))
  let s' := { s with fsReads := s.fsReads.tail }
  match r with
  | .ok text => (s'.loader text, s')
  | .error e => (.error e, s')

/-- Rust `FileStore::changed`: on the first call record `now` and return `true`;
afterwards stat the file and return `true` (recording the new time) iff the
stat succeeded with a strictly newer modification time. -/
def FileStore.changed (s : FileStore) : Bool × FileStore :=
  match s.last with
  | none => (true, { s with last := some (s.fsNows.headD 0), fsNows := s.fsNows.tail })
  | some prev =>
    let stat := s.fsStats.headD none
    let s' := { s with fsStats := s.fsStats.tail }
    match stat.filter (fun t => decide (prev < t)) with
    | some t => (true, { s' with last := some t })
    | none => (false, s')

instance : TemplateStore FileStore where
  parse_map := FileStore.parse_map
  changed := FileStore.changed

/-- Rust `PartialStore<D, P>` from `src/store.rs`.  The Rust field `partial` is a
Lean keyword, so it is named `part` here. -/
structure PartialStore (D P : Type) where
  default : D
  part : P

/-- Rust `PartialStore::new`. -/
def PartialStore.new {D P : Type} (default : D) (part : P) : PartialStore D P :=
  { default := default, part := part }

/-- Rust `PartialStore::parse_map`: parse the partial store first
(`unwrap_or_default` turns its failure into the empty map), then the default
store (`?` propagates its failure), then `right.extend(left)`. -/
def PartialStore.parse_map {D P : Type} [TemplateStore D] [TemplateStore P]
    (s : PartialStore D P) : Except Error TemplateMap × PartialStore D P :=
  let (lres, p') := TemplateStore.parse_map s.part
  let left : TemplateMap := lres.toOption.getD []
  let (rres, d') := TemplateStore.parse_map s.default
  (rres.map (fun right => mapExtend right left), { default := d', part := p' })

/-- Rust `PartialStore::changed`: delegates to the partial store only. -/
def PartialStore.changed {D P : Type} [TemplateStore D] [TemplateStore P]
    (s : PartialStore D P) : Bool × PartialStore D P :=
  let (b, p') := TemplateStore.changed s.part
  (b, { s with part := p' })

instance {D P : Type} [TemplateStore D] [TemplateStore P] :
    TemplateStore (PartialStore D P) where
  parse_map := PartialStore.parse_map
  changed := PartialStore.changed

/-- Rust `Box<T>` wrapper (`impl TemplateStore for Box<T>`). -/
structure BoxStore (σ : Type) where
  inner : σ

/-- Rust `Box::parse_map` forwarding. -/
def BoxStore.parse_map {σ : Type} [TemplateStore σ] (s : BoxStore σ) :
    Except Error TemplateMap × BoxStore σ :=
  let (r, i) := TemplateStore.parse_map s.inner
  (r, { inner := i })

/-- Rust `Box::changed` forwarding. -/
def BoxStore.changed {σ : Type} [TemplateStore σ] (s : BoxStore σ) :
    Bool × BoxStore σ :=
  let (b, i) := TemplateStore.changed s.inner
  (b, { inner := i })

instance {σ : Type} [TemplateStore σ] : TemplateStore (BoxStore σ) where
  parse_map := BoxStore.parse_map
  changed := BoxStore.changed

/-- Rust `&mut T` wrapper (`impl TemplateStore for &mut T`). -/
structure MutRefStore (σ : Type) where
  inner : σ

/-- Rust `&mut T::parse_map` forwarding. -/
def MutRefStore.parse_map {σ : Type} [TemplateStore σ] (s : MutRefStore σ) :
    Except Error TemplateMap × MutRefStore σ :=
  let (r, i) := TemplateStore.parse_map s.inner
  (r, { inner := i })

/-- Rust `&mut T::changed` forwarding. -/
def MutRefStore.changed {σ : Type} [TemplateStore σ] (s : MutRefStore σ) :
    Bool × MutRefStore σ :=
  let (b, i) := TemplateStore.changed s.inner
  (b, { inner := i })

instance {σ : Type} [TemplateStore σ] : TemplateStore (MutRefStore σ) where
  parse_map := MutRefStore.parse_map
  changed := MutRefStore.changed

/-- Rust `Option<T>::parse_map`: `self.as_mut().ok_or_else(Io error)?.parse_map()` —
forwards for `Some`, fails with an `Io` error for `None`. -/
def OptionStore.parse_map {σ : Type} [TemplateStore σ] (s : Option σ) :
    Except Error TemplateMap × Option σ :=
  match s with
  | none => (.error (.Io "None store always returns an error"), none)
  | some inner =>
    let (r, i) := TemplateStore.parse_map inner
    (r, some i)

/-- Rust `Option<T>::changed`: hard-coded `true` (the source carries a TODO noting
it does not consult the inner store). -/
def OptionStore.changed {σ : Type} [TemplateStore σ] (s : Option σ) :
    Bool × Option σ :=
  (true, s)

instance {σ : Type} [TemplateStore σ] : TemplateStore (Option σ) where
  parse_map := OptionStore.parse_map
  changed := OptionStore.changed

/-- Rust `Templates<S>` from `src/templates.rs`. -/
structure Templates (σ : Type) where
  store : σ
  templates : TemplateMap

/-- Rust `Templates::refresh`: if `store.changed()`, replace the cached map with
`store.parse_map()?`; a parse failure propagates and leaves the cache as it
was. -/
def Templates.refresh {σ : Type} [TemplateStore σ] (t : Templates σ) :
    Except Error Unit × Templates σ :=
  let (c, s') := TemplateStore.changed t.store
  if c then
    let (r, s'') := TemplateStore.parse_map s'
    match r with
    | .ok m => (.ok (), { store := s'', templates := m })
    | .error e => (.error e, { store := s'', templates := t.templates })
  else
    (.ok (), { t with store := s' })

/-- Rust `Templates::new`: start with the empty map, then `refresh`, propagating
its failure. -/
def Templates.new {σ : Type} [TemplateStore σ] (store : σ) :
    Except Error (Templates σ) :=
  match Templates.refresh { store := store, templates := [] } with
  | (.ok _, t) => .ok t
  | (.error e, _) => .error e

/-- Rust `Templates::get`: pure read against the cache. -/
def Templates.get {σ : Type} (t : Templates σ) (ns : String) : Option Mapping :=
  mapGet ns t.templates

/-- Rust `Resolver<S>` from `src/lib.rs`. -/
structure Resolver (σ : Type) where
  templates : Templates σ

/-- Rust `Resolver::new`. -/
def Resolver.new {σ : Type} [TemplateStore σ] (store : σ) :
    Except Error (Resolver σ) :=
  (Templates.new store).map (fun t => { templates := t })

/-- Rust `Resolver::resolve`: `self.templates.refresh().map_err(log).ok()?` —
a refresh failure short-circuits to `None`; otherwise look up
`namespace` then `variant` in the cache. -/
def Resolver.resolve {σ : Type} [TemplateStore σ] (r : Resolver σ)
    (ns variant : String) : Option String × Resolver σ :=
  match Templates.refresh r.templates with
  | (.error _, t') => (none, { templates := t' })
  | (.ok _, t') =>
    ((mapGet ns t'.templates).bind (fun m => mapGet variant m), { templates := t' })

/-- Instrumentation wrapper counting `parse_map` calls (the spec's "call
counter on the load function"); forwards both operations. -/
structure Counted (σ : Type) where
  inner : σ
  parses : Nat

instance {σ : Type} [TemplateStore σ] : TemplateStore (Counted σ) where
  parse_map c :=
    let (r, i) := TemplateStore.parse_map c.inner
    (r, { inner := i, parses := c.parses + 1 })
  changed c :=
    let (b, i) := TemplateStore.changed c.inner
    (b, { c with inner := i })

/-- A concrete `LoadFunction` used for concrete evaluations: it recognises a
fixed set of buffers and rejects everything else as a deserialize error. -/
def testLoader : LoadFunction := fun s =>
  if s = "default-data" then .ok [("a", [("x", "1"), ("y", "2")])]
  else if s = "override-data" then .ok [("a", [("x", "9")])]
  else if s = "good" then .ok [("a", [("x", "1")])]
  else .error (.Deserialize "malformed")

/-- Concrete default store for the merge-precedence evaluation:
its buffer parses to the map `a.x = 1, a.y = 2`. -/
def c1Default : MemoryStore := MemoryStore.new "default-data" testLoader

/-- Concrete partial store for the merge-precedence evaluation:
its buffer parses to the map `a.x = 9`. -/
def c1Part : MemoryStore := MemoryStore.new "override-data" testLoader

/-! ## Theorems -/

/-- C8: for every `NullStore`, `changed()` always returns `false` and
`parse_map()` always returns an `Io` error, so a `NullStore` never
produces a `TemplateMap`. -/
theorem nullStore_always_fails (s : NullStore) :
    NullStore.changed s = (false, s) ∧
    NullStore.parse_map s = (.error (.Io "NullStore will always be empty"), s) ∧
    ((NullStore.parse_map s).1.isOk = false) :=
  ⟨rfl, rfl, rfl⟩

/-- C10: `FileStore::new` returns `Ok` for every path and load function,
performs no I/O (the filesystem observation scripts are untouched) and
records no modification time (`last = none`). -/
theorem fileStore_new_total (f : String) (l : LoadFunction) (ns : List Nat)
    (ss : List (Option Nat)) (rs : List (Except Error String)) :
    FileStore.new f l ns ss rs =
      .ok { file := f, last := none, loader := l,
            fsNows := ns, fsStats := ss, fsReads := rs } :=
  rfl

/-- C9: `MemoryStore::parse_map` clears the dirty flag before invoking the
load function (even when loading fails, the buffer and flag end up
non-dirty), so after any `parse_map` call `changed()` is `false` until
`update` sets it again; a refresh on an unchanged store does nothing. -/
theorem memoryStore_parse_clears_flag (s : MemoryStore) (d : String) :
    ((MemoryStore.parse_map s).2).changed = false ∧
    ((MemoryStore.parse_map s).2).data = s.data ∧
    (TemplateStore.changed ((MemoryStore.parse_map s).2)).1 = false ∧
    (MemoryStore.update s d).changed = true ∧
    (∀ t : Templates MemoryStore, t.store.changed = false →
      Templates.refresh t = (.ok (), t)) := by
  refine ⟨rfl, rfl, rfl, rfl, ?_⟩
  intro t h
  simp [Templates.refresh, TemplateStore.changed, h]

/-- Witness for C9 at a concrete store whose buffer fails to load. -/
theorem memoryStore_parse_clears_flag_witness :
    ((MemoryStore.parse_map (MemoryStore.new "bad" testLoader)).2).changed = false ∧
    Templates.refresh
        ({ store := { data := "bad", changed := false, loader := testLoader },
           templates := [] } : Templates MemoryStore) =
      (.ok (), ({ store := { data := "bad", changed := false, loader := testLoader },
                  templates := [] } : Templates MemoryStore)) :=
  ⟨(memoryStore_parse_clears_flag (MemoryStore.new "bad" testLoader) "x").1,
   (memoryStore_parse_clears_flag (MemoryStore.new "bad" testLoader) "x").2.2.2.2
     _ rfl⟩

/-- C1 evaluation at the spec's own example: with default `a.x=1, a.y=2`
and override `a.x=9`, `PartialStore::parse_map` merges with `HashMap::extend` at
namespace granularity, so the whole namespace `a` is replaced by the partial
store's `Mapping` and the sibling key `a.y` is lost (the claimed entry-level
merge would give `a.y = 2`). -/
theorem layeredStore_namespace_level_override :
    (PartialStore.parse_map (PartialStore.new c1Default c1Part)).1 =
      .ok [("a", [("x", "9")])] ∧
    ((PartialStore.parse_map (PartialStore.new c1Default c1Part)).1.toOption.bind
      (fun m => (mapGet "a" m).bind (fun mp => mapGet "y" mp))) = none := by
  constructor <;> rfl

/-- Unfolding lemma for `PartialStore.parse_map` in projection form. -/
theorem PartialStore.parse_map_def {D P : Type} [TemplateStore D] [TemplateStore P]
    (s : PartialStore D P) :
    PartialStore.parse_map s =
      ((TemplateStore.parse_map s.default).1.map
         (fun right => mapExtend right
            ((TemplateStore.parse_map s.part).1.toOption.getD [])),
       { default := (TemplateStore.parse_map s.default).2,
         part := (TemplateStore.parse_map s.part).2 }) :=
  rfl

/-- C5: a failing partial fetch is absorbed — `PartialStore::parse_map` then
returns exactly what the default store's `parse_map` returns (its map
unmodified, or its error); a failing default fetch is propagated. -/
theorem layeredStore_error_policy {D P : Type} [TemplateStore D] [TemplateStore P]
    (s : PartialStore D P) :
    (∀ e, (TemplateStore.parse_map s.part).1 = .error e →
      (PartialStore.parse_map s).1 = (TemplateStore.parse_map s.default).1) ∧
    (∀ e, (TemplateStore.parse_map s.default).1 = .error e →
      (PartialStore.parse_map s).1 = .error e) := by
  constructor
  · intro e h
    rw [PartialStore.parse_map_def, h]
    cases hd : (TemplateStore.parse_map s.default).1 <;> rfl
  · intro e h
    rw [PartialStore.parse_map_def, h]
    rfl

/-- Witness for C5: a malformed partial buffer next to the good default gives
back the default map; a malformed default buffer propagates its error. -/
theorem layeredStore_error_policy_witness :
    (PartialStore.parse_map
        (PartialStore.new c1Default (MemoryStore.new "bad" testLoader))).1 =
      (TemplateStore.parse_map c1Default).1 ∧
    (PartialStore.parse_map
        (PartialStore.new (MemoryStore.new "bad" testLoader) c1Part)).1 =
      .error (.Deserialize "malformed") :=
  ⟨(layeredStore_error_policy
      (PartialStore.new c1Default (MemoryStore.new "bad" testLoader))).1
      (.Deserialize "malformed") rfl,
   (layeredStore_error_policy
      (PartialStore.new (MemoryStore.new "bad" testLoader) c1Part)).2
      (.Deserialize "malformed") rfl⟩

/-- Unfolding lemma for `Templates.refresh` in projection form. -/
theorem Templates.refresh_def {σ : Type} [TemplateStore σ] (t : Templates σ) :
    Templates.refresh t =
      (if (TemplateStore.changed t.store).1 then
        match (TemplateStore.parse_map (TemplateStore.changed t.store).2).1 with
        | .ok m =>
          (.ok (), { store := (TemplateStore.parse_map (TemplateStore.changed t.store).2).2,
                     templates := m })
        | .error e =>
          (.error e, { store := (TemplateStore.parse_map (TemplateStore.changed t.store).2).2,
                       templates := t.templates })
      else (.ok (), { t with store := (TemplateStore.changed t.store).2 })) :=
  rfl

/-- C4: when `refresh` does call `parse_map`, a success replaces the cached
map wholesale and `refresh` succeeds; a failure is returned and leaves the
cached map exactly as it was. -/
theorem templates_refresh_atomic {σ : Type} [TemplateStore σ] (t : Templates σ) :
    (TemplateStore.changed t.store).1 = true →
      (∀ m, (TemplateStore.parse_map (TemplateStore.changed t.store).2).1 = .ok m →
        Templates.refresh t =
          (.ok (), { store := (TemplateStore.parse_map (TemplateStore.changed t.store).2).2,
                     templates := m })) ∧
      (∀ e, (TemplateStore.parse_map (TemplateStore.changed t.store).2).1 = .error e →
        Templates.refresh t =
          (.error e, { store := (TemplateStore.parse_map (TemplateStore.changed t.store).2).2,
                       templates := t.templates })) := by
  intro hc
  constructor
  · intro m hp
    rw [Templates.refresh_def, hc, hp]
    rfl
  · intro e hp
    rw [Templates.refresh_def, hc, hp]
    rfl

/-- Witness for C4 at concrete memory-backed caches: a successful parse
replaces the cache, a failing parse returns the error and retains it. -/
theorem templates_refresh_atomic_witness :
    Templates.refresh
        ({ store := MemoryStore.new "good" testLoader, templates := [] } :
          Templates MemoryStore) =
      (.ok (), { store := { data := "good", changed := false, loader := testLoader },
                 templates := [("a", [("x", "1")])] }) ∧
    Templates.refresh
        ({ store := MemoryStore.new "bad" testLoader,
           templates := [("z", [("w", "0")])] } : Templates MemoryStore) =
      (.error (.Deserialize "malformed"),
       { store := { data := "bad", changed := false, loader := testLoader },
         templates := [("z", [("w", "0")])] }) :=
  ⟨(templates_refresh_atomic
      ({ store := MemoryStore.new "good" testLoader, templates := [] } :
        Templates MemoryStore) rfl).1 [("a", [("x", "1")])] rfl,
   (templates_refresh_atomic
      ({ store := MemoryStore.new "bad" testLoader,
         templates := [("z", [("w", "0")])] } : Templates MemoryStore) rfl).2
      (.Deserialize "malformed") rfl⟩

/-- C6: `FileStore::changed` records "now" and returns `true` when no
timestamp is recorded yet; otherwise it returns `true` and records the
file's modification time iff the stat succeeded with a strictly newer time,
and returns `false` (keeping the recorded time) on a stat failure or a
not-strictly-newer time. -/
theorem fileStore_changed_spec (s : FileStore) :
    (s.last = none →
      FileStore.changed s =
        (true, { s with last := some (s.fsNows.headD 0), fsNows := s.fsNows.tail })) ∧
    (∀ prev, s.last = some prev →
      (∀ t, s.fsStats.headD none = some t → prev < t →
        FileStore.changed s =
          (true, { s with last := some t, fsStats := s.fsStats.tail })) ∧
      (∀ t, s.fsStats.headD none = some t → ¬ prev < t →
        FileStore.changed s = (false, { s with fsStats := s.fsStats.tail })) ∧
      (s.fsStats.headD none = none →
        FileStore.changed s = (false, { s with fsStats := s.fsStats.tail }))) := by
  constructor
  · intro h
    simp [FileStore.changed, h]
  · intro prev hp
    refine ⟨?_, ?_, ?_⟩
    · intro t ht hlt
      simp only [FileStore.changed, hp, ht]
      simp [Option.filter, hlt]
    · intro t ht hlt
      simp only [FileStore.changed, hp, ht]
      simp [Option.filter, hlt]
    · intro ht
      simp only [FileStore.changed, hp, ht]
      simp [Option.filter]

/-- Witness for C6: first call records now; a strictly newer stat flips to
`true`; an equal stat or a failing stat yields `false`. -/
theorem fileStore_changed_spec_witness :
    FileStore.changed
        { file := "f", last := none, loader := testLoader,
          fsNows := [5], fsStats := [], fsReads := [] } =
      (true, { file := "f", last := some 5, loader := testLoader,
               fsNows := [], fsStats := [], fsReads := [] }) ∧
    FileStore.changed
        { file := "f", last := some 5, loader := testLoader,
          fsNows := [], fsStats := [some 7], fsReads := [] } =
      (true, { file := "f", last := some 7, loader := testLoader,
               fsNows := [], fsStats := [], fsReads := [] }) ∧
    FileStore.changed
        { file := "f", last := some 5, loader := testLoader,
          fsNows := [], fsStats := [some 5], fsReads := [] } =
      (false, { file := "f", last := some 5, loader := testLoader,
                fsNows := [], fsStats := [], fsReads := [] }) ∧
    FileStore.changed
        { file := "f", last := some 5, loader := testLoader,
          fsNows := [], fsStats := [none], fsReads := [] } =
      (false, { file := "f", last := some 5, loader := testLoader,
                fsNows := [], fsStats := [], fsReads := [] }) :=
  ⟨(fileStore_changed_spec _).1 rfl,
   ((fileStore_changed_spec _).2 5 rfl).1 7 rfl (by decide),
   ((fileStore_changed_spec _).2 5 rfl).2.1 5 rfl (by decide),
   ((fileStore_changed_spec _).2 5 rfl).2.2 rfl⟩

/-- Unfolding lemma for the `Counted` wrapper's `changed`. -/
theorem Counted.changed_def {σ : Type} [TemplateStore σ] (c : Counted σ) :
    TemplateStore.changed c =
      ((TemplateStore.changed c.inner).1,
       { inner := (TemplateStore.changed c.inner).2, parses := c.parses }) :=
  rfl

/-- Unfolding lemma for the `Counted` wrapper's `parse_map`. -/
theorem Counted.parse_map_unfold {σ : Type} [TemplateStore σ] (c : Counted σ) :
    TemplateStore.parse_map c =
      ((TemplateStore.parse_map c.inner).1,
       { inner := (TemplateStore.parse_map c.inner).2, parses := c.parses + 1 }) :=
  rfl

/-- C7 counterexample: the `Option<T>` wrapper does not forward `changed()` —
on `Some(NullStore)` the wrapper reports `true` while the inner store
reports `false`. -/
theorem optionStore_changed_not_forwarded :
    (OptionStore.changed (some NullStore.new)).1 = true ∧
    (NullStore.changed NullStore.new).1 = false :=
  ⟨rfl, rfl⟩

/-- C7 amended: `Box<T>` and `&mut T` forward both operations unchanged;
`Option<T>` forwards `parse_map` for `Some` (and fails with an `Io` error
for `None`) but its `changed()` is hard-coded `true`, regardless of the
inner store. -/
theorem wrapper_forwarding {σ : Type} [TemplateStore σ] :
    (∀ s : BoxStore σ,
      BoxStore.parse_map s =
        ((TemplateStore.parse_map s.inner).1,
         { inner := (TemplateStore.parse_map s.inner).2 }) ∧
      BoxStore.changed s =
        ((TemplateStore.changed s.inner).1,
         { inner := (TemplateStore.changed s.inner).2 })) ∧
    (∀ s : MutRefStore σ,
      MutRefStore.parse_map s =
        ((TemplateStore.parse_map s.inner).1,
         { inner := (TemplateStore.parse_map s.inner).2 }) ∧
      MutRefStore.changed s =
        ((TemplateStore.changed s.inner).1,
         { inner := (TemplateStore.changed s.inner).2 })) ∧
    (∀ s : σ,
      OptionStore.parse_map (some s) =
        ((TemplateStore.parse_map s).1, some (TemplateStore.parse_map s).2)) ∧
    (OptionStore.parse_map (none : Option σ) =
      (.error (.Io "None store always returns an error"), none)) ∧
    (∀ o : Option σ, OptionStore.changed o = (true, o)) :=
  ⟨fun _ => ⟨rfl, rfl⟩, fun _ => ⟨rfl, rfl⟩, fun _ => rfl, rfl, fun _ => rfl⟩

/-- C3 counterexample: a fresh `NullStore`'s first `changed()` is `false`,
and `Templates::new` over a (parse-counting) `NullStore` performs zero
`parse_map` calls, succeeding with the empty map. -/
theorem nullStore_first_changed_false :
    (NullStore.changed NullStore.new).1 = false ∧
    Templates.new ({ inner := NullStore.new, parses := 0 } : Counted NullStore) =
      .ok { store := { inner := NullStore.new, parses := 0 }, templates := [] } :=
  ⟨rfl, rfl⟩

/-- C3 amended: fresh `FileStore`, `MemoryStore` and `PartialStore` (which
delegates to its partial component) all report `changed() = true` first, and
a refresh of a fresh cache then performs exactly one `parse_map` call; a
fresh `NullStore` reports `false`, so its first refresh performs none. -/
theorem first_changed_forces_single_parse {σ D P : Type} [TemplateStore σ]
    [TemplateStore D] [TemplateStore P] :
    (∀ d l, (TemplateStore.changed (MemoryStore.new d l)).1 = true) ∧
    (∀ f l a b c fs, FileStore.new f l a b c = .ok fs →
      (FileStore.changed fs).1 = true) ∧
    (∀ s : PartialStore D P,
      (PartialStore.changed s).1 = (TemplateStore.changed s.part).1) ∧
    (∀ s : σ, (TemplateStore.changed s).1 = true →
      (Templates.refresh
        ({ store := { inner := s, parses := 0 }, templates := [] } :
          Templates (Counted σ))).2.store.parses = 1) ∧
    (∀ s : σ, (TemplateStore.changed s).1 = false →
      (Templates.refresh
        ({ store := { inner := s, parses := 0 }, templates := [] } :
          Templates (Counted σ))).2.store.parses = 0) := by
  refine ⟨fun d l => rfl, ?_, fun s => rfl, ?_, ?_⟩
  · intro f l a b c fs h
    injection h with h
    subst h
    rfl
  · intro s h
    rw [Templates.refresh_def]
    simp only [Counted.changed_def, Counted.parse_map_unfold, h, if_true]
    cases (TemplateStore.parse_map (TemplateStore.changed s).2).1 <;> rfl
  · intro s h
    rw [Templates.refresh_def]
    simp only [Counted.changed_def, h, if_false]
    rfl

/-- Witness for C3 amended at concrete stores: a fresh memory store and a
fresh file store report `changed`, a counted fresh memory store parses once,
a counted null store parses zero times. -/
theorem first_changed_forces_single_parse_witness :
    (TemplateStore.changed (MemoryStore.new "good" testLoader)).1 = true ∧
    (FileStore.changed
        { file := "f", last := none, loader := testLoader,
          fsNows := [3], fsStats := [], fsReads := [] }).1 = true ∧
    (Templates.refresh
        ({ store := { inner := MemoryStore.new "good" testLoader, parses := 0 },
           templates := [] } : Templates (Counted MemoryStore))).2.store.parses = 1 ∧
    (Templates.refresh
        ({ store := { inner := NullStore.new, parses := 0 },
           templates := [] } : Templates (Counted NullStore))).2.store.parses = 0 :=
  ⟨(first_changed_forces_single_parse (σ := MemoryStore) (D := NullStore)
      (P := NullStore)).1 "good" testLoader,
   (first_changed_forces_single_parse (σ := MemoryStore) (D := NullStore)
      (P := NullStore)).2.1 "f" testLoader [3] [] [] _ rfl,
   (first_changed_forces_single_parse (σ := MemoryStore) (D := NullStore)
      (P := NullStore)).2.2.2.1 (MemoryStore.new "good" testLoader) rfl,
   (first_changed_forces_single_parse (σ := NullStore) (D := NullStore)
      (P := NullStore)).2.2.2.2 NullStore.new rfl⟩

/-- Unfolding lemma for `Resolver.resolve` in projection form. -/
theorem Resolver.resolve_def {σ : Type} [TemplateStore σ] (r : Resolver σ)
    (ns variant : String) :
    Resolver.resolve r ns variant =
      (match (Templates.refresh r.templates).1 with
       | .error _ => (none, { templates := (Templates.refresh r.templates).2 })
       | .ok _ =>
         ((mapGet ns (Templates.refresh r.templates).2.templates).bind
            (fun m => mapGet variant m),
          { templates := (Templates.refresh r.templates).2 })) := by
  unfold Resolver.resolve
  rcases hr : Templates.refresh r.templates with ⟨res, t'⟩
  cases res <;> rfl

/-- C2 counterexample: a resolver built from a buffer parsing to `a.x = 1`
resolves `"1"`; after `update` replaces the buffer with malformed data, the
next `resolve` hits a failing refresh and returns `none` — not the
previously cached value — even though the cached map still holds `a.x = 1`. -/
theorem resolver_failure_hides_stale_cache :
    Resolver.new (MemoryStore.new "good" testLoader) =
      .ok { templates :=
              { store := { data := "good", changed := false, loader := testLoader },
                templates := [("a", [("x", "1")])] } } ∧
    (Resolver.resolve
        ({ templates :=
             { store := { data := "good", changed := false, loader := testLoader },
               templates := [("a", [("x", "1")])] } } : Resolver MemoryStore)
        "a" "x").1 = some "1" ∧
    MemoryStore.update { data := "good", changed := false, loader := testLoader } "bad" =
      { data := "bad", changed := true, loader := testLoader } ∧
    (Resolver.resolve
        ({ templates :=
             { store := { data := "bad", changed := true, loader := testLoader },
               templates := [("a", [("x", "1")])] } } : Resolver MemoryStore)
        "a" "x").1 = none ∧
    ((Resolver.resolve
        ({ templates :=
             { store := { data := "bad", changed := true, loader := testLoader },
               templates := [("a", [("x", "1")])] } } : Resolver MemoryStore)
        "a" "x").1 == some "1") = false ∧
    (Resolver.resolve
        ({ templates :=
             { store := { data := "bad", changed := true, loader := testLoader },
               templates := [("a", [("x", "1")])] } } : Resolver MemoryStore)
        "a" "x").2.templates.templates = [("a", [("x", "1")])] :=
  ⟨rfl, rfl, rfl, rfl, rfl, rfl⟩

/-- C2 amended: when refresh fails inside `resolve`, the failure is swallowed
into a `none` result (the stale cache is NOT consulted for the answer),
while the cached map itself is left at the last successfully parsed value. -/
theorem resolver_refresh_failure_yields_none {σ : Type} [TemplateStore σ]
    (r : Resolver σ) (ns v : String) :
    ∀ e, (Templates.refresh r.templates).1 = .error e →
      (Resolver.resolve r ns v).1 = none ∧
      ((Resolver.resolve r ns v).2).templates.templates = r.templates.templates := by
  intro e h
  constructor
  · rw [Resolver.resolve_def, h]
  · rw [Resolver.resolve_def, h]
    show ((Templates.refresh r.templates).2).templates = r.templates.templates
    rw [Templates.refresh_def] at h ⊢
    cases hc : (TemplateStore.changed r.templates.store).1 with
    | false => simp [hc] at h
    | true =>
      simp only [hc, if_true] at h ⊢
      cases hp : (TemplateStore.parse_map (TemplateStore.changed r.templates.store).2).1 with
      | ok m => rw [hp] at h; simp at h
      | error e' => rfl

/-- Witness for C2 amended at the concrete failing-refresh resolver. -/
theorem resolver_refresh_failure_yields_none_witness :
    (Resolver.resolve
        ({ templates :=
             { store := { data := "bogus", changed := true, loader := testLoader },
               templates := [("greet", [("hello", "hi")])] } } : Resolver MemoryStore)
        "greet" "hello").1 = none ∧
    ((Resolver.resolve
        ({ templates :=
             { store := { data := "bogus", changed := true, loader := testLoader },
               templates := [("greet", [("hello", "hi")])] } } : Resolver MemoryStore)
        "greet" "hello").2).templates.templates = [("greet", [("hello", "hi")])] :=
  resolver_refresh_failure_yields_none
    ({ templates :=
         { store := { data := "bogus", changed := true, loader := testLoader },
           templates := [("greet", [("hello", "hi")])] } } : Resolver MemoryStore)
    "greet" "hello" (.Deserialize "malformed") rfl
